import Mathlib

/-
Verification development for the uubrella / DropMapp item-hiding application.

The repository is a React single-page client plus a serverless backend.
The client code (API wrapper, creation forms, admin page) is embedded
directly from the TypeScript sources.  The backend request handlers
(retrieval authorization, public listing, admin listing, creation
response shape) are not part of the snapshot, so they are modelled from
the specification; each such definition carries a doc comment starting
with "Modelled from the spec:".

Conventions of the embedding:
- JavaScript string values are Lean String; absent / null optional
  strings are Option String, with JS truthiness of an optional string
  captured by truthyStr (non-null and non-empty).
- Numeric coordinates are carried opaquely as Rat; no claim performs
  arithmetic on them.
- A fetch that the client would issue is reified as a ClientAction value
  carrying the method, path and query parameters; a thrown Error is the
  clientError constructor.
-/

namespace DropMapp

/-- Visibility enum from frontend/src/types/item.ts. -/
inductive Visibility where
  | PUBLIC
  | PRIVATE
deriving DecidableEq

/-- Full backend record of an item, per the data model of the spec
(section 3) and the fields of the frontend Item type; secret_key is
optional and present only for PRIVATE items. -/
structure ItemRecord where
  item_id : String
  secret_key : Option String
  visibility : Visibility
  category : Option String
  title : String
  description : String
  latitude : Rat
  longitude : Rat
  image_url : String
  created_at : String
deriving DecidableEq

/-- Frontend Item type from frontend/src/types/item.ts (lines 28-41):
the secret_key field is intentionally absent from this type. -/
structure Item where
  item_id : String
  title : String
  description : String
  latitude : Rat
  longitude : Rat
  image_url : String
  created_at : String
  visibility : Visibility
  category : Option String
deriving DecidableEq

/-- PublicItemSummary from frontend/src/types/item.ts (lines 65-72). -/
structure PublicItemSummary where
  item_id : String
  title : String
  latitude : Rat
  longitude : Rat
  category : Option String
deriving DecidableEq

/-- CreateItemResponse from frontend/src/types/item.ts (lines 53-58):
secret_key and secret_url_path are optional, returned only for PRIVATE
items. -/
structure CreateItemResponse where
  item_id : String
  secret_key : Option String
  secret_url_path : Option String
deriving DecidableEq

/-- CreateItemRequest from frontend/src/types/item.ts; visibility is
marked optional in TS with a backend default of PRIVATE, but both form
variants always supply it, so it is required here; category is sent
only for public submissions. -/
structure CreateItemRequest where
  title : String
  description : String
  latitude : Rat
  longitude : Rat
  image : String
  visibility : Visibility
  category : Option String
deriving DecidableEq

/-- Location from frontend/src/types/item.ts. -/
structure Location where
  latitude : Rat
  longitude : Rat
deriving DecidableEq

/-- Error taxonomy of the spec (section 7). -/
inductive ApiError where
  | validationError (msg : String)
  | notFoundError
  | credentialRequiredError
  | forbiddenError
  | unauthorizedAdminError
  | upstreamStorageError
deriving DecidableEq

/-- Modelled from the spec: the handler layer maps typed errors to
transport status codes (section 7); the handler code is not in the
snapshot. -/
def statusCode : ApiError → Nat
  | .validationError _ => 400
  | .notFoundError => 404
  | .credentialRequiredError => 401
  | .forbiddenError => 403
  | .unauthorizedAdminError => 401
  | .upstreamStorageError => 502

/-- Projection dropping secret_key, used when a record is returned to a
caller (spec section 4.3 step 4); target type is the frontend Item. -/
def toView (r : ItemRecord) : Item :=
  { item_id := r.item_id
    title := r.title
    description := r.description
    latitude := r.latitude
    longitude := r.longitude
    image_url := r.image_url
    created_at := r.created_at
    visibility := r.visibility
    category := r.category }

/-- Point lookup of a record by item_id in the record store. -/
def findItem (store : List ItemRecord) (itemId : String) : Option ItemRecord :=
  store.find? (fun r => r.item_id == itemId)

/-- Validity test of a presented admin credential against the
process-wide admin secret (spec section 4.3 step 3a). -/
def validAdminKey (adminSecret : String) : Option String → Bool
  | none => false
  | some k => decide (k = adminSecret)

/-- Modelled from the spec: the backend get-item handler is not in the
snapshot; this follows the authorization algorithm of section 4.3
verbatim: lookup by id (absent gives NotFound), PUBLIC is authorized
unconditionally, PRIVATE is authorized by a valid admin key or an
exactly matching secret key, no credential at all gives
CredentialRequired, and a wrong credential gives Forbidden; an
authorized result is the record minus secret_key. -/
def getItemBackend (adminSecret : String) (store : List ItemRecord) (itemId : String)
    (secretKey adminKey : Option String) : Except ApiError Item :=
  match findItem store itemId with
  | none => .error .notFoundError
  | some r =>
    match r.visibility with
    | .PUBLIC => .ok (toView r)
    | .PRIVATE =>
      if validAdminKey adminSecret adminKey then .ok (toView r)
      else
        match secretKey with
        | some k =>
          if r.secret_key = some k then .ok (toView r)
          else .error .forbiddenError
        | none =>
          match adminKey with
          | none => .error .credentialRequiredError
          | some _ => .error .forbiddenError

/-- Summary projection of a record for the public listing (spec section
4.4, target type PublicItemSummary from the frontend). -/
def summarize (r : ItemRecord) : PublicItemSummary :=
  { item_id := r.item_id
    title := r.title
    latitude := r.latitude
    longitude := r.longitude
    category := r.category }

/-- Modelled from the spec: the backend public-listing handler is not in
the snapshot; section 4.4 returns all records with visibility PUBLIC,
each reduced to the summary projection. -/
def listPublicItems (store : List ItemRecord) : List PublicItemSummary :=
  (store.filter (fun r => decide (r.visibility = Visibility.PUBLIC))).map summarize

/-- Modelled from the spec: the backend admin-listing handler is not in
the snapshot; section 4.5 returns every record when the admin key
matches the configured secret and Unauthorized with no data otherwise. -/
def adminListItems (adminSecret : String) (store : List ItemRecord)
    (adminKey : String) : Except ApiError (List ItemRecord) :=
  if adminKey = adminSecret then .ok store else .error .unauthorizedAdminError

/-- Modelled from the spec: the backend create handler is not in the
snapshot; section 4.2 step 6 returns item_id always, and secret_key
plus the derived secret retrieval path (slash items slash id, query key)
only for PRIVATE items, with PUBLIC responses omitting both. -/
def createResult (itemId : String) (visibility : Visibility) (secret : String) :
    CreateItemResponse :=
  match visibility with
  | .PRIVATE =>
    { item_id := itemId
      secret_key := some secret
      secret_url_path := some (("/items/") ++ itemId ++ ("?key=") ++ secret) }
  | .PUBLIC =>
    { item_id := itemId
      secret_key := none
      secret_url_path := none }

/-- JS truthiness of an optional string: false for null or undefined and
for the empty string. -/
def truthyStr : Option String → Bool
  | none => false
  | some s => decide (s ≠ (""))

/-- Query parameters built by getItem in the unnamed api module
(src/unnamed/part_006 lines 60-72): the key parameter is appended when
secretKey is truthy, otherwise admin_key is appended when adminKey is
truthy. -/
def getItemParams (secretKey adminKey : Option String) : List (String × String) :=
  if truthyStr secretKey then [(("key"), secretKey.getD (""))]
  else if truthyStr adminKey then [(("admin_key"), adminKey.getD (""))]
  else []

/-- Error message chosen by the client in getItem of
frontend/src/utils/api.ts (lines 69-91): specific messages for status
404, 403 and 401, otherwise the body error or a generic fallback. -/
def getItemErrorMessage (status : Nat) (bodyError : Option String) : String :=
  if status = 404 then ("Item not found")
  else if status = 403 then ("Invalid secret key")
  else if status = 401 then ("Secret key is required for this item")
  else bodyError.getD ("Failed to fetch item")

/-- Observable action of a client API function: either a locally thrown
Error or an HTTP request with method, path and query parameters. -/
inductive ClientAction where
  | clientError (msg : String)
  | request (method : String) (path : String) (params : List (String × String))
deriving DecidableEq

/-- getAllItems from frontend/src/utils/api.ts (lines 131-160): throws
before any fetch when adminKey is falsy (empty), else issues the admin
listing request. -/
def getAllItemsClient (adminKey : String) : ClientAction :=
  if adminKey = ("") then .clientError ("Admin key is required to fetch all items.")
  else .request ("GET") ("/admin/items") ([(("admin_key"), adminKey)])

/-- deleteItem from frontend/src/utils/api.ts (lines 169-200): throws
before any fetch when adminKey is falsy (empty), else issues the delete
request on the item path. -/
def deleteItemClient (itemId : String) (adminKey : String) : ClientAction :=
  if adminKey = ("") then .clientError ("Admin key is required to delete items.")
  else .request ("DELETE") (("/items/") ++ itemId) ([(("admin_key"), adminKey)])

/-- Executable model of the JavaScript string trim applied by both form
variants before validation and submission: leading and trailing
whitespace is removed; defined by structural list recursion so that
concrete instances evaluate inside the kernel. -/
def jsTrim (s : String) : String :=
  String.mk
    (((s.data.dropWhile Char.isWhitespace).reverse.dropWhile Char.isWhitespace).reverse)

/-- State of the category-checkbox creation form in
frontend/src/components/ItemForm.tsx (lines 37-47): user title,
description, optional map location, optional image, the public
checkbox, and the selected category string (empty when unselected). -/
structure ItemFormState where
  title : String
  description : String
  location : Option Location
  image : Option String
  isPublic : Bool
  category : String
deriving DecidableEq

/-- Outcome of a form submission: a local validation error shown to the
user (no request issued) or a createItem request with its payload. -/
inductive SubmitOutcome where
  | validationError (msg : String)
  | submitted (payload : CreateItemRequest)
deriving DecidableEq

/-- handleSubmit of frontend/src/components/ItemForm.tsx (lines 59-87):
checks title, description, location, image, and category when public,
in that order, and otherwise submits the trimmed fields with visibility
derived from the checkbox and category included only when public. -/
def itemFormHandleSubmit (s : ItemFormState) : SubmitOutcome :=
  if jsTrim s.title = ("") then .validationError ("Title is required")
  else if jsTrim s.description = ("") then .validationError ("Description is required")
  else
    match s.location with
    | none => .validationError ("Please select a location on the map")
    | some loc =>
      match s.image with
      | none => .validationError ("Please upload an image")
      | some img =>
        if s.isPublic = true ∧ s.category = ("") then
          .validationError ("Please select a category for the public item")
        else
          .submitted
            { title := jsTrim s.title
              description := jsTrim s.description
              latitude := loc.latitude
              longitude := loc.longitude
              image := img
              visibility := if s.isPublic then Visibility.PUBLIC else Visibility.PRIVATE
              category := if s.isPublic then some s.category else none }

/-- Entry of the fixed item-type table of the item-type form variant
(frontend/src/components/ImageUpload.tsx, ITEM_TYPES). -/
structure ItemTypeEntry where
  value : String
  label : String
  emoji : String
deriving DecidableEq

/-- ITEM_TYPES table from the item-type form variant
(frontend/src/components/ImageUpload.tsx lines 232-240). -/
def ITEM_TYPES : List ItemTypeEntry :=
  [ { value := ("private"), label := ("Private Item"), emoji := ("L") }
  , { value := ("public-umbrella"), label := ("Community Umbrella"), emoji := ("U") }
  , { value := ("public-library"), label := ("Little Free Library"), emoji := ("B") }
  , { value := ("public-art"), label := ("Public Art"), emoji := ("A") }
  , { value := ("public-restroom"), label := ("Public Restroom"), emoji := ("R") }
  , { value := ("public-stray-cat"), label := ("Cat"), emoji := ("C") }
  , { value := ("public-water-fountain"), label := ("Water Fountain"), emoji := ("W") } ]

/-- getCategoryFromType from the item-type form variant: label of the
found non-private type, else the empty string. -/
def getCategoryFromType (t : String) : String :=
  match ITEM_TYPES.find? (fun ty => ty.value == t) with
  | some ty => if t = ("private") then ("") else ty.label
  | none => ("")

/-- getTitleFromType from the item-type form variant: identical lookup,
giving the intended title for submission of a public item. -/
def getTitleFromType (t : String) : String :=
  match ITEM_TYPES.find? (fun ty => ty.value == t) with
  | some ty => if t = ("private") then ("") else ty.label
  | none => ("")

/-- State of the item-type creation form variant
(frontend/src/components/ImageUpload.tsx lines 434 onward). -/
structure TypeFormState where
  itemType : String
  userEnteredTitle : String
  description : String
  location : Option Location
  image : Option String
deriving DecidableEq

/-- handleSubmit of the item-type form variant
(frontend/src/components/ImageUpload.tsx lines 437-470): the submitted
title is the user title for private items and getTitleFromType for
public ones; validation checks the user title only for private items,
then description, image and location in that order. -/
def typeFormHandleSubmit (s : TypeFormState) : SubmitOutcome :=
  if s.itemType = ("private") ∧ jsTrim s.userEnteredTitle = ("") then
    .validationError ("Title is required for private items")
  else if jsTrim s.description = ("") then .validationError ("Description is required")
  else
    match s.image with
    | none => .validationError ("Please upload an image")
    | some img =>
      match s.location with
      | none => .validationError ("Please select a location on the map")
      | some loc =>
        .submitted
          { title :=
              jsTrim (if s.itemType = ("private") then s.userEnteredTitle
                else getTitleFromType s.itemType)
            description := jsTrim s.description
            latitude := loc.latitude
            longitude := loc.longitude
            image := img
            visibility :=
              if s.itemType = ("private") then Visibility.PRIVATE else Visibility.PUBLIC
            category :=
              if s.itemType = ("private") then none
              else some (getCategoryFromType s.itemType) }

/-- Per-item failure message of the bulk delete handler
(frontend/src/pages/AdminPage.tsx lines 188-194) for a rejection whose
reason is an Error. -/
def bulkDeleteMsg (itemId reason : String) : String :=
  ("Failed to delete item ") ++ itemId ++ (": ") ++ reason

/-- Result gathering of Promise.allSettled in handleConfirmBulkDelete
(frontend/src/pages/AdminPage.tsx lines 179-198): each selected id is
attempted independently (its outcome depends only on that id), a
fulfilled delete pushes the id to the success list and a rejection
pushes its message to the failure list, preserving order. -/
def bulkDeleteCollect : List String → (String → Except String Unit) →
    List String × List String
  | [], _ => ([], [])
  | id :: rest, outcome =>
    let p := bulkDeleteCollect rest outcome
    match outcome id with
    | .ok _ => (id :: p.1, p.2)
    | .error m => (p.1, bulkDeleteMsg id m :: p.2)

/-- Boolean success test of a per-id delete outcome. -/
def deleteSucceeded (outcome : String → Except String Unit) (id : String) : Bool :=
  match outcome id with
  | .ok _ => true
  | .error _ => false

/-- Aggregate result of the bulk delete flow: ids deleted, per-id
failure messages, items remaining in the table, and the aggregated
error banner. -/
structure BulkDeleteResult where
  deleted : List String
  failures : List String
  remaining : List Item
  bulkError : Option String
deriving DecidableEq

/-- handleConfirmBulkDelete of frontend/src/pages/AdminPage.tsx (lines
166-219): gathers all settled outcomes, removes exactly the
successfully deleted ids from the item list, and joins the failure
messages into one banner when any exist; the handler itself never
throws. -/
def handleConfirmBulkDelete (items : List Item) (selected : List String)
    (outcome : String → Except String Unit) : BulkDeleteResult :=
  let p := bulkDeleteCollect selected outcome
  { deleted := p.1
    failures := p.2
    remaining := items.filter (fun it => !(decide (it.item_id ∈ p.1)))
    bulkError :=
      if p.2 = [] then none
      else some (("Errors occurred during bulk delete:\n- ") ++
        String.intercalate ("\n- ") p.2) }

/-- Concrete PRIVATE record used by witnesses. -/
def demoPriv : ItemRecord :=
  { item_id := ("id1")
    secret_key := some ("s3cret")
    visibility := Visibility.PRIVATE
    category := none
    title := ("Keys")
    description := ("Left on bench")
    latitude := 40
    longitude := -74
    image_url := ("u1")
    created_at := ("2025-01-01") }

/-- Concrete PUBLIC record used by witnesses. -/
def demoPub : ItemRecord :=
  { item_id := ("id2")
    secret_key := none
    visibility := Visibility.PUBLIC
    category := some ("Street Art")
    title := ("Public Art")
    description := ("Mural")
    latitude := 41
    longitude := -73
    image_url := ("u2")
    created_at := ("2025-01-02") }

/-- Concrete two-record store used by witnesses. -/
def demoStore : List ItemRecord := [demoPriv, demoPub]

/-- Concrete admin-table row with id A. -/
def demoViewA : Item :=
  { item_id := ("A"), title := ("ta"), description := ("da"), latitude := 1,
    longitude := 2, image_url := ("ua"), created_at := ("2025-01-01"),
    visibility := Visibility.PRIVATE, category := none }

/-- Concrete admin-table row with id B. -/
def demoViewB : Item :=
  { item_id := ("B"), title := ("tb"), description := ("db"), latitude := 3,
    longitude := 4, image_url := ("ub"), created_at := ("2025-01-02"),
    visibility := Visibility.PRIVATE, category := none }

/-- Concrete admin-table row with id C. -/
def demoViewC : Item :=
  { item_id := ("C"), title := ("tc"), description := ("dc"), latitude := 5,
    longitude := 6, image_url := ("uc"), created_at := ("2025-01-03"),
    visibility := Visibility.PRIVATE, category := none }

/-- Concrete admin-table contents used by the bulk-delete witness. -/
def demoViews : List Item := [demoViewA, demoViewB, demoViewC]

/-- Per-id delete outcome in which only id B fails, mirroring the spec
scenario of a bulk delete over A, B, C where B does not exist. -/
def demoOutcome : String → Except String Unit :=
  fun id => if id = ("B") then Except.error ("Item not found") else Except.ok ()

/-- Checkbox-form state whose title is blank. -/
def emptyTitleForm : ItemFormState :=
  { title := (""), description := ("d"), location := some ⟨1, 2⟩,
    image := some ("i"), isPublic := false, category := ("") }

/-- Checkbox-form state whose description is blank after trimming. -/
def emptyDescForm : ItemFormState :=
  { title := ("t"), description := ("  "), location := some ⟨1, 2⟩,
    image := some ("i"), isPublic := false, category := ("") }

/-- Checkbox-form state with no location selected. -/
def noLocForm : ItemFormState :=
  { title := ("t"), description := ("d"), location := none,
    image := some ("i"), isPublic := false, category := ("") }

/-- Checkbox-form state with no image uploaded. -/
def noImageForm : ItemFormState :=
  { title := ("t"), description := ("d"), location := some ⟨1, 2⟩,
    image := none, isPublic := false, category := ("") }

/-- Checkbox-form state marked public with no category chosen. -/
def noCategoryForm : ItemFormState :=
  { title := ("t"), description := ("d"), location := some ⟨1, 2⟩,
    image := some ("i"), isPublic := true, category := ("") }

/-- Item-type-form state for a public art item with a user-typed title
that the form ignores. -/
def demoTypeForm : TypeFormState :=
  { itemType := ("public-art"), userEnteredTitle := ("ignored words"),
    description := ("d"), location := some ⟨1, 2⟩, image := some ("i") }

/-- Payload the item-type form submits for demoTypeForm. -/
def demoTypePayload : CreateItemRequest :=
  { title := ("Public Art"), description := ("d"), latitude := 1, longitude := 2,
    image := ("i"), visibility := Visibility.PUBLIC, category := some ("Public Art") }

/-- Checkbox-form state for a valid public submission with a caller
title that is not any lookup label. -/
def publicCheckboxForm : ItemFormState :=
  { title := ("My house keys"), description := ("desc"), location := some ⟨40, -74⟩,
    image := some ("img"), isPublic := true, category := ("Street Art") }

/-- Payload the checkbox form submits for publicCheckboxForm. -/
def publicCheckboxPayload : CreateItemRequest :=
  { title := ("My house keys"), description := ("desc"), latitude := 40,
    longitude := -74, image := ("img"), visibility := Visibility.PUBLIC,
    category := some ("Street Art") }

/-- Claim C3: a successful creation of a PRIVATE item returns both
secret_key and a secret_url_path of the form slash items slash id with
the key as query parameter, while a PUBLIC creation returns neither
field, only item_id. -/
theorem createResult_private_public_fields (itemId secret : String) :
    (createResult itemId Visibility.PRIVATE secret).item_id = itemId ∧
    (createResult itemId Visibility.PRIVATE secret).secret_key = some secret ∧
    (createResult itemId Visibility.PRIVATE secret).secret_url_path =
      some (("/items/") ++ itemId ++ ("?key=") ++ secret) ∧
    (createResult itemId Visibility.PUBLIC secret).item_id = itemId ∧
    (createResult itemId Visibility.PUBLIC secret).secret_key = none ∧
    (createResult itemId Visibility.PUBLIC secret).secret_url_path = none := by
  exact ⟨rfl, rfl, rfl, rfl, rfl, rfl⟩

/-- Claim C8: the admin listing rejects a non-matching admin key with
UnauthorizedAdmin and returns no data, and a matching key returns every
record of the store regardless of visibility. -/
theorem adminList_requires_admin_secret (adminSecret : String)
    (store : List ItemRecord) (adminKey : String) :
    (adminKey ≠ adminSecret →
      adminListItems adminSecret store adminKey =
        Except.error ApiError.unauthorizedAdminError ∧
      ∀ l, adminListItems adminSecret store adminKey ≠ Except.ok l) ∧
    (adminKey = adminSecret →
      adminListItems adminSecret store adminKey = Except.ok store) := by
  constructor
  · intro h
    refine ⟨by simp [adminListItems, h], ?_⟩
    intro l hl
    simp [adminListItems, h] at hl
  · intro h
    simp [adminListItems, h]

/-- Witness for C8 on a concrete store, wrong key and right key. -/
theorem adminList_requires_admin_secret_witness :
    (("wrong") ≠ ("adm1n") ∧
      adminListItems ("adm1n") demoStore ("wrong") =
        Except.error ApiError.unauthorizedAdminError) ∧
    adminListItems ("adm1n") demoStore ("adm1n") = Except.ok demoStore := by
  refine ⟨⟨by decide, ?_⟩, ?_⟩
  · exact ((adminList_requires_admin_secret ("adm1n") demoStore ("wrong")).1
      (by decide)).1
  · exact (adminList_requires_admin_secret ("adm1n") demoStore ("adm1n")).2 rfl

/-- Claim C9: the client getItem request carries at most one
credential: a truthy secretKey is sent as the key parameter with any
adminKey ignored, the adminKey is sent only when no truthy secretKey is
present, and no request ever carries both parameters. -/
theorem getItemParams_single_credential (secretKey adminKey : Option String) :
    (truthyStr secretKey = true →
      getItemParams secretKey adminKey = [(("key"), secretKey.getD (""))]) ∧
    (truthyStr secretKey = false → truthyStr adminKey = true →
      getItemParams secretKey adminKey = [(("admin_key"), adminKey.getD (""))]) ∧
    (truthyStr secretKey = false → truthyStr adminKey = false →
      getItemParams secretKey adminKey = []) ∧
    (getItemParams secretKey adminKey).length ≤ 1 ∧
    (∀ v w, ¬((("key"), v) ∈ getItemParams secretKey adminKey ∧
      (("admin_key"), w) ∈ getItemParams secretKey adminKey)) := by
  refine ⟨?_, ?_, ?_, ?_, ?_⟩
  · intro h
    simp [getItemParams, h]
  · intro h1 h2
    simp [getItemParams, h1, h2]
  · intro h1 h2
    simp [getItemParams, h1, h2]
  · unfold getItemParams
    split
    · simp
    · split <;> simp
  · intro v w hvw
    rcases hvw with ⟨hv, hw⟩
    unfold getItemParams at hv hw
    split at hv <;> rename_i h1
    · rw [if_pos h1] at hw
      simp at hw
    · split at hv <;> simp at hv

/-- Witness for C9 with a concrete secret key, admin key and both
absence cases. -/
theorem getItemParams_single_credential_witness :
    (truthyStr (some ("s3cret")) = true ∧
      getItemParams (some ("s3cret")) (some ("adm1n")) = [(("key"), ("s3cret"))]) ∧
    (truthyStr (none : Option String) = false ∧ truthyStr (some ("adm1n")) = true ∧
      getItemParams none (some ("adm1n")) = [(("admin_key"), ("adm1n"))]) ∧
    (getItemParams none none = []) := by
  refine ⟨⟨by decide, ?_⟩, ⟨rfl, by decide, ?_⟩, ?_⟩
  · exact (getItemParams_single_credential (some ("s3cret")) (some ("adm1n"))).1
      (by decide)
  · exact (getItemParams_single_credential none (some ("adm1n"))).2.1 rfl (by decide)
  · exact (getItemParams_single_credential none none).2.2.1 rfl rfl

/-- Claim C10: both admin-only client operations reject an empty admin
key with a local error naming the missing key, and in that case no
request of any shape is issued. -/
theorem admin_ops_reject_empty_key (itemId adminKey : String) :
    adminKey = ("") →
    getAllItemsClient adminKey =
      ClientAction.clientError ("Admin key is required to fetch all items.") ∧
    deleteItemClient itemId adminKey =
      ClientAction.clientError ("Admin key is required to delete items.") ∧
    (∀ m p q, getAllItemsClient adminKey ≠ ClientAction.request m p q) ∧
    (∀ m p q, deleteItemClient itemId adminKey ≠ ClientAction.request m p q) := by
  intro h
  subst h
  refine ⟨rfl, rfl, ?_, ?_⟩ <;> intro m p q hc <;>
    simp [getAllItemsClient, deleteItemClient] at hc

/-- Witness for C10 at the empty admin key and a concrete item id. -/
theorem admin_ops_reject_empty_key_witness :
    getAllItemsClient ("") =
      ClientAction.clientError ("Admin key is required to fetch all items.") ∧
    deleteItemClient ("abc") ("") =
      ClientAction.clientError ("Admin key is required to delete items.") := by
  have h := admin_ops_reject_empty_key ("abc") ("") rfl
  exact ⟨h.1, h.2.1⟩

/-- Claim C1: retrieval distinguishes the three failure outcomes: an
unknown id gives NotFound and the client message Item not found, a
PRIVATE item with no credential gives CredentialRequired and the
message Secret key is required for this item, and a PRIVATE item with a
wrong key gives Forbidden and the message Invalid secret key; a wrong
key on an existing PRIVATE item never yields NotFound. -/
theorem getItem_failure_taxonomy (adminSecret : String) (store : List ItemRecord)
    (itemId : String) (secretKey adminKey bodyError : Option String) :
    (findItem store itemId = none →
      getItemBackend adminSecret store itemId secretKey adminKey =
        Except.error ApiError.notFoundError ∧
      getItemErrorMessage (statusCode ApiError.notFoundError) bodyError =
        ("Item not found")) ∧
    (∀ r, findItem store itemId = some r → r.visibility = Visibility.PRIVATE →
      secretKey = none → adminKey = none →
      getItemBackend adminSecret store itemId secretKey adminKey =
        Except.error ApiError.credentialRequiredError ∧
      getItemErrorMessage (statusCode ApiError.credentialRequiredError) bodyError =
        ("Secret key is required for this item")) ∧
    (∀ r w, findItem store itemId = some r → r.visibility = Visibility.PRIVATE →
      secretKey = some w → r.secret_key ≠ some w →
      validAdminKey adminSecret adminKey = false →
      getItemBackend adminSecret store itemId secretKey adminKey =
        Except.error ApiError.forbiddenError ∧
      getItemErrorMessage (statusCode ApiError.forbiddenError) bodyError =
        ("Invalid secret key") ∧
      getItemBackend adminSecret store itemId secretKey adminKey ≠
        Except.error ApiError.notFoundError) := by
  refine ⟨?_, ?_, ?_⟩
  · intro h
    exact ⟨by simp [getItemBackend, h], rfl⟩
  · intro r hfind hvis hsk hak
    subst hsk
    subst hak
    refine ⟨?_, rfl⟩
    simp [getItemBackend, hfind, hvis, validAdminKey]
  · intro r w hfind hvis hsk hne hadm
    subst hsk
    have hb : getItemBackend adminSecret store itemId (some w) adminKey =
        Except.error ApiError.forbiddenError := by
      simp [getItemBackend, hfind, hvis, hadm, hne]
    refine ⟨hb, rfl, ?_⟩
    rw [hb]
    intro hc
    cases hc

/-- Witness for C1 on a concrete store: unknown id, private item with
no credential, and private item with a wrong key. -/
theorem getItem_failure_taxonomy_witness :
    (findItem demoStore ("nope") = none ∧
      getItemBackend ("adm1n") demoStore ("nope") none none =
        Except.error ApiError.notFoundError ∧
      getItemErrorMessage 404 none = ("Item not found")) ∧
    (getItemBackend ("adm1n") demoStore ("id1") none none =
        Except.error ApiError.credentialRequiredError ∧
      getItemErrorMessage 401 none = ("Secret key is required for this item")) ∧
    (getItemBackend ("adm1n") demoStore ("id1") (some ("wrong")) none =
        Except.error ApiError.forbiddenError ∧
      getItemErrorMessage 403 none = ("Invalid secret key") ∧
      getItemBackend ("adm1n") demoStore ("id1") (some ("wrong")) none ≠
        Except.error ApiError.notFoundError) := by
  have hnf := (getItem_failure_taxonomy ("adm1n") demoStore ("nope") none none none).1
    (by decide)
  have hcr := (getItem_failure_taxonomy ("adm1n") demoStore ("id1") none none none).2.1
    demoPriv (by decide) rfl rfl rfl
  have hfb := (getItem_failure_taxonomy ("adm1n") demoStore ("id1")
    (some ("wrong")) none none).2.2 demoPriv ("wrong") (by decide) rfl rfl
    (by decide) rfl
  exact ⟨⟨by decide, hnf.1, hnf.2⟩, ⟨hcr.1, hcr.2⟩, hfb⟩

/-- Claim C5: an authorized retrieval returns the record through the
toView projection, whose result carries no secret_key field and is
unchanged by any value of the stored secret_key, so the credential is
never echoed back. -/
theorem getItem_never_returns_secret_key (adminSecret : String)
    (store : List ItemRecord) (itemId : String)
    (secretKey adminKey : Option String) (v : Item) :
    (getItemBackend adminSecret store itemId secretKey adminKey = Except.ok v →
      ∃ r, findItem store itemId = some r ∧ v = toView r) ∧
    (∀ (r : ItemRecord) (k : Option String),
      toView { r with secret_key := k } = toView r) := by
  constructor
  · unfold getItemBackend
    split
    · intro h
      cases h
    · rename_i r hfind
      intro h
      refine ⟨r, hfind, ?_⟩
      split at h
      · cases h
        rfl
      · split at h
        · cases h
          rfl
        · split at h
          · split at h
            · cases h
              rfl
            · cases h
          · split at h
            · cases h
            · cases h
  · intro r k
    rfl

/-- Witness for C5: a private item fetched with the correct key gives
an ok result equal to the view of the stored record. -/
theorem getItem_never_returns_secret_key_witness :
    getItemBackend ("adm1n") demoStore ("id1") (some ("s3cret")) none =
      Except.ok (toView demoPriv) ∧
    (∃ r, findItem demoStore ("id1") = some r ∧ toView demoPriv = toView r) := by
  have h1 : getItemBackend ("adm1n") demoStore ("id1") (some ("s3cret")) none =
      Except.ok (toView demoPriv) := by rfl
  exact ⟨h1, (getItem_never_returns_secret_key ("adm1n") demoStore ("id1")
    (some ("s3cret")) none (toView demoPriv)).1 h1⟩

/-- Claim C2: the public listing contains exactly the summary
projections of the PUBLIC records of the store, and the summary
projection ignores the stored secret_key, so no PRIVATE record and no
secret_key ever appears in the result. -/
theorem listPublicItems_only_public_summaries (store : List ItemRecord)
    (s : PublicItemSummary) :
    (s ∈ listPublicItems store ↔
      ∃ r, r ∈ store ∧ r.visibility = Visibility.PUBLIC ∧ s = summarize r) ∧
    (∀ (r : ItemRecord) (k : Option String),
      summarize { r with secret_key := k } = summarize r) := by
  constructor
  · unfold listPublicItems
    constructor
    · intro h
      rcases List.mem_map.mp h with ⟨r, hr, hs⟩
      rcases List.mem_filter.mp hr with ⟨hmem, hp⟩
      exact ⟨r, hmem, of_decide_eq_true hp, hs.symm⟩
    · rintro ⟨r, hmem, hvis, rfl⟩
      exact List.mem_map.mpr ⟨r, List.mem_filter.mpr ⟨hmem, decide_eq_true hvis⟩, rfl⟩
  · intro r k
    rfl

/-- Witness for C2: on the concrete store the summary of the public
record is listed, and the private record is indeed private. -/
theorem listPublicItems_only_public_summaries_witness :
    summarize demoPub ∈ listPublicItems demoStore ∧
    demoPriv.visibility = Visibility.PRIVATE ∧
    listPublicItems demoStore = [summarize demoPub] := by
  refine ⟨?_, rfl, by decide⟩
  exact (listPublicItems_only_public_summaries demoStore (summarize demoPub)).1.mpr
    ⟨demoPub, by decide, rfl, rfl⟩

/-- Claim C7: the checkbox creation form fails validation with a
message naming the missing field, and issues no create request,
whenever the title or description is empty after trimming, the
location or image is missing, or the form is public with no category. -/
theorem itemForm_validation_blocks_submit (s : ItemFormState) :
    ((s.isPublic = true ∧ s.category = ("")) ∨ jsTrim s.title = ("") ∨
      jsTrim s.description = ("") ∨ s.location = none ∨ s.image = none →
      ∃ msg, itemFormHandleSubmit s = SubmitOutcome.validationError msg) ∧
    (jsTrim s.title = ("") →
      itemFormHandleSubmit s = SubmitOutcome.validationError ("Title is required")) ∧
    (jsTrim s.title ≠ ("") → jsTrim s.description = ("") →
      itemFormHandleSubmit s =
        SubmitOutcome.validationError ("Description is required")) ∧
    (jsTrim s.title ≠ ("") → jsTrim s.description ≠ ("") → s.location = none →
      itemFormHandleSubmit s =
        SubmitOutcome.validationError ("Please select a location on the map")) ∧
    (∀ loc, jsTrim s.title ≠ ("") → jsTrim s.description ≠ ("") →
      s.location = some loc → s.image = none →
      itemFormHandleSubmit s =
        SubmitOutcome.validationError ("Please upload an image")) ∧
    (∀ loc img, jsTrim s.title ≠ ("") → jsTrim s.description ≠ ("") →
      s.location = some loc → s.image = some img →
      s.isPublic = true → s.category = ("") →
      itemFormHandleSubmit s =
        SubmitOutcome.validationError ("Please select a category for the public item")) := by
  refine ⟨?_, ?_, ?_, ?_, ?_, ?_⟩
  · intro hbad
    unfold itemFormHandleSubmit
    split
    · exact ⟨_, rfl⟩
    · split
      · exact ⟨_, rfl⟩
      · split
        · exact ⟨_, rfl⟩
        · split
          · exact ⟨_, rfl⟩
          · split
            · exact ⟨_, rfl⟩
            · exfalso
              rcases hbad with h | h | h | h | h <;> simp_all
  · intro ht
    simp [itemFormHandleSubmit, ht]
  · intro ht hd
    simp [itemFormHandleSubmit, ht, hd]
  · intro ht hd hloc
    simp [itemFormHandleSubmit, ht, hd, hloc]
  · intro loc ht hd hloc himg
    simp [itemFormHandleSubmit, ht, hd, hloc, himg]
  · intro loc img ht hd hloc himg hpub hcat
    simp [itemFormHandleSubmit, ht, hd, hloc, himg, hpub, hcat]

/-- Witness for C7 exercising every validation branch on concrete form
states. -/
theorem itemForm_validation_blocks_submit_witness :
    itemFormHandleSubmit emptyTitleForm =
      SubmitOutcome.validationError ("Title is required") ∧
    itemFormHandleSubmit emptyDescForm =
      SubmitOutcome.validationError ("Description is required") ∧
    itemFormHandleSubmit noLocForm =
      SubmitOutcome.validationError ("Please select a location on the map") ∧
    itemFormHandleSubmit noImageForm =
      SubmitOutcome.validationError ("Please upload an image") ∧
    itemFormHandleSubmit noCategoryForm =
      SubmitOutcome.validationError ("Please select a category for the public item") ∧
    (∃ msg, itemFormHandleSubmit noCategoryForm =
      SubmitOutcome.validationError msg) := by
  refine ⟨?_, ?_, ?_, ?_, ?_, ?_⟩
  · exact (itemForm_validation_blocks_submit emptyTitleForm).2.1 rfl
  · exact (itemForm_validation_blocks_submit emptyDescForm).2.2.1 (by decide) rfl
  · exact (itemForm_validation_blocks_submit noLocForm).2.2.2.1 (by decide)
      (by decide) rfl
  · exact (itemForm_validation_blocks_submit noImageForm).2.2.2.2.1 ⟨1, 2⟩
      (by decide) (by decide) rfl rfl
  · exact (itemForm_validation_blocks_submit noCategoryForm).2.2.2.2.2 ⟨1, 2⟩ ("i")
      (by decide) (by decide) rfl rfl rfl rfl
  · exact (itemForm_validation_blocks_submit noCategoryForm).1
      (Or.inl ⟨rfl, rfl⟩)

/-- Claim C4, counterexample: in the cited checkbox form
(frontend/src/components/ItemForm.tsx lines 59-87) a PUBLIC creation
submits the caller-supplied title unchanged; the submitted title here
equals the typed title and matches no label of the fixed item-type
lookup table, so the caller title is not ignored or overridden. -/
theorem itemForm_public_submits_caller_title :
    itemFormHandleSubmit publicCheckboxForm =
      SubmitOutcome.submitted publicCheckboxPayload ∧
    publicCheckboxPayload.visibility = Visibility.PUBLIC ∧
    publicCheckboxPayload.title = publicCheckboxForm.title ∧
    (ITEM_TYPES.all (fun ty => !(decide (ty.label = publicCheckboxPayload.title))))
      = true := by
  refine ⟨by decide, rfl, rfl, by decide⟩

/-- Claim C4, amended: in the item-type form variant
(frontend/src/components/ImageUpload.tsx), every PUBLIC submission
ignores the user-entered title entirely and submits the title derived
from the fixed ITEM_TYPES lookup for the chosen item type, with the
category derived from the same table. -/
theorem typeForm_public_title_from_lookup (s : TypeFormState) :
    s.itemType ≠ ("private") →
    ((∀ t, typeFormHandleSubmit { s with userEnteredTitle := t } =
        typeFormHandleSubmit s) ∧
     (∀ p, typeFormHandleSubmit s = SubmitOutcome.submitted p →
       p.title = jsTrim (getTitleFromType s.itemType) ∧
       p.visibility = Visibility.PUBLIC ∧
       p.category = some (getCategoryFromType s.itemType))) := by
  intro hpub
  constructor
  · intro t
    unfold typeFormHandleSubmit
    simp [hpub]
  · intro p hp
    unfold typeFormHandleSubmit at hp
    rw [if_neg (fun hc => hpub hc.1)] at hp
    split at hp
    · cases hp
    · split at hp
      · cases hp
      · split at hp
        · cases hp
        · cases hp
          exact ⟨by simp [hpub], by simp [hpub], by simp [hpub]⟩

/-- Witness for C4 on a concrete public item-type form state: the
submission is invariant in the user-entered title and carries the
lookup label Public Art as its title and category. -/
theorem typeForm_public_title_from_lookup_witness :
    typeFormHandleSubmit { demoTypeForm with userEnteredTitle := ("other") } =
      typeFormHandleSubmit demoTypeForm ∧
    typeFormHandleSubmit demoTypeForm = SubmitOutcome.submitted demoTypePayload ∧
    demoTypePayload.title = jsTrim (getTitleFromType ("public-art")) ∧
    demoTypePayload.visibility = Visibility.PUBLIC ∧
    demoTypePayload.category = some (getCategoryFromType ("public-art")) ∧
    getTitleFromType ("public-art") = ("Public Art") := by
  have h := typeForm_public_title_from_lookup demoTypeForm (by decide)
  have hsub : typeFormHandleSubmit demoTypeForm =
      SubmitOutcome.submitted demoTypePayload := by decide
  have h2 := h.2 demoTypePayload hsub
  exact ⟨h.1 ("other"), hsub, h2.1, h2.2.1, h2.2.2, by decide⟩

/-- Successes gathered by the bulk delete are exactly the selected ids
whose individual delete succeeded, in order. -/
theorem bulkDeleteCollect_fst (sel : List String)
    (outcome : String → Except String Unit) :
    (bulkDeleteCollect sel outcome).1 = sel.filter (deleteSucceeded outcome) := by
  induction sel with
  | nil => rfl
  | cons a rest ih =>
    unfold bulkDeleteCollect
    cases h : outcome a <;>
      simp [List.filter_cons, deleteSucceeded, h, ih]

/-- Every failing selected id contributes its message to the gathered
failure list. -/
theorem bulkDeleteCollect_mem_snd (sel : List String)
    (outcome : String → Except String Unit) (id m : String)
    (hmem : id ∈ sel) (hout : outcome id = Except.error m) :
    bulkDeleteMsg id m ∈ (bulkDeleteCollect sel outcome).2 := by
  induction sel with
  | nil => cases hmem
  | cons a rest ih =>
    unfold bulkDeleteCollect
    rcases List.mem_cons.mp hmem with h | h
    · subst h
      rw [hout]
      simp
    · cases ha : outcome a with
      | error ma =>
        simp [ha]
        exact Or.inr (ih h)
      | ok u =>
        simp [ha]
        exact ih h

/-- Every selected id lands in exactly one of the two gathered lists. -/
theorem bulkDeleteCollect_len (sel : List String)
    (outcome : String → Except String Unit) :
    (bulkDeleteCollect sel outcome).1.length +
      (bulkDeleteCollect sel outcome).2.length = sel.length := by
  induction sel with
  | nil => rfl
  | cons a rest ih =>
    unfold bulkDeleteCollect
    cases h : outcome a <;> simp [h] <;> omega

/-- Claim C6: the bulk delete gathers an independent per-id outcome for
every selected id without aborting or throwing: the deleted ids are
exactly the selected ids whose delete succeeded, every failing id is
reported in the aggregated failure list, the two lists account for all
selected ids, and exactly the successfully deleted ids are removed from
the item table. -/
theorem bulkDelete_partial_failure_semantics (items : List Item)
    (selected : List String) (outcome : String → Except String Unit) :
    (handleConfirmBulkDelete items selected outcome).deleted =
      selected.filter (deleteSucceeded outcome) ∧
    (∀ id m, id ∈ selected → outcome id = Except.error m →
      bulkDeleteMsg id m ∈ (handleConfirmBulkDelete items selected outcome).failures) ∧
    (handleConfirmBulkDelete items selected outcome).deleted.length +
      (handleConfirmBulkDelete items selected outcome).failures.length =
      selected.length ∧
    (∀ it, it ∈ (handleConfirmBulkDelete items selected outcome).remaining ↔
      (it ∈ items ∧
        it.item_id ∉ (handleConfirmBulkDelete items selected outcome).deleted)) := by
  refine ⟨bulkDeleteCollect_fst selected outcome,
    fun id m hm ho => bulkDeleteCollect_mem_snd selected outcome id m hm ho,
    bulkDeleteCollect_len selected outcome, ?_⟩
  intro it
  simp [handleConfirmBulkDelete, List.mem_filter]

/-- Witness for C6 on the spec scenario: bulk delete of A, B, C where
only B fails deletes A and C, reports B in the failure list, and keeps
exactly B in the table. -/
theorem bulkDelete_partial_failure_semantics_witness :
    (handleConfirmBulkDelete demoViews [("A"), ("B"), ("C")] demoOutcome).deleted =
      [("A"), ("C")] ∧
    bulkDeleteMsg ("B") ("Item not found") ∈
      (handleConfirmBulkDelete demoViews [("A"), ("B"), ("C")] demoOutcome).failures ∧
    demoViewB ∈
      (handleConfirmBulkDelete demoViews [("A"), ("B"), ("C")] demoOutcome).remaining ∧
    demoViewA ∉
      (handleConfirmBulkDelete demoViews [("A"), ("B"), ("C")] demoOutcome).remaining := by
  have h := bulkDelete_partial_failure_semantics demoViews [("A"), ("B"), ("C")]
    demoOutcome
  have hdel : (handleConfirmBulkDelete demoViews [("A"), ("B"), ("C")]
      demoOutcome).deleted = [("A"), ("C")] := by
    rw [h.1]
    decide
  refine ⟨hdel, h.2.1 ("B") ("Item not found") (by decide) rfl, ?_, ?_⟩
  · refine (h.2.2.2 demoViewB).mpr ⟨by decide, ?_⟩
    rw [hdel]
    decide
  · intro hmem
    have hc := ((h.2.2.2 demoViewA).mp hmem).2
    rw [hdel] at hc
    exact hc (by decide)

end DropMapp
